import Mathlib

/-!
Verification of the resource-discovery and pipeline-assignment engine of
drm_hwcomposer (`src/drm/DrmDevice.cpp`, `src/drm/DrmDevice.h`).

The embedding identifies every CRTC, encoder and connector owned by a
device with its index in the device's owning vector (C++ object pointers
into `crtcs_` / `encoders_` / `connectors_` correspond one-to-one to
indices), and models the `std::map` members as association lists with
unique keys (`alookup` / `ainsert`).  Kernel calls made by `Init` are
modelled by a `KernelEnv` record holding each call's outcome for one run.
-/

namespace DrmHwc

/-- Errno values used by DrmDevice.cpp (returned negated). -/
def ENODEV : Int := 19

/-- Errno value EACCES, returned negated on missing DRM master access. -/
def EACCES : Int := 13

/-- Errno value ENOENT, returned negated by GetProperty and on plane query failure. -/
def ENOENT : Int := 2

/-- Errno value EAGAIN, returned negated by TryEncoderForDisplay as the retry signal. -/
def EAGAIN : Int := 11

/-- CRTC: kernel object id plus enumeration index (the index is the bit
position in encoders' possible-CRTC bitmasks). -/
structure DrmCrtc where
  id : Nat
  index : Nat
deriving DecidableEq, Repr

/-- Encoder: kernel id, enumeration index, currently configured CRTC id
(0 when none) and the possible-CRTC bitmask.  The attribute set is
modelled from the spec (DrmEncoder.h is not under src): "id, index,
current CRTC id (0 if none), possible-CRTC bitmask". -/
structure DrmEncoder where
  id : Nat
  index : Nat
  current_crtc_id : Nat
  possible_crtcs : Nat
deriving DecidableEq, Repr

/-- Connector: kernel id, enumeration index, currently configured encoder
id (0 when none), supported-encoder id set, and the classification flags.
The attribute set is modelled from the spec (DrmConnector.h is not under
src): "connection state, internal-vs-external classification, writeback
capability flag, current encoder id (0 if none), supported-encoder set". -/
structure DrmConnector where
  id : Nat
  index : Nat
  current_encoder_id : Nat
  possible_encoders : List Nat
  connected : Bool
  internal : Bool
  writeback : Bool
deriving DecidableEq, Repr

/-- Modelled from the spec: an encoder can drive a CRTC when the CRTC's
index bit is set in the encoder's possible-CRTC bitmask. -/
def DrmEncoder.SupportsCrtc (enc : DrmEncoder) (crtc : DrmCrtc) : Bool :=
  Nat.testBit enc.possible_crtcs crtc.index

/-- Modelled from the spec: a connector supports an encoder when the
encoder's id belongs to the connector's supported-encoder set. -/
def DrmConnector.SupportsEncoder (conn : DrmConnector) (enc : DrmEncoder) : Bool :=
  conn.possible_encoders.contains enc.id

/-- Connection state snapshot, as sampled at enumeration time. -/
def DrmConnector.IsConnected (conn : DrmConnector) : Bool :=
  conn.connected

/-- Internal classification flag. -/
def DrmConnector.IsInternal (conn : DrmConnector) : Bool :=
  conn.internal

/-- Modelled from the spec: "internal-vs-external classification" is a
binary classification, so external is the complement of internal. -/
def DrmConnector.IsExternal (conn : DrmConnector) : Bool :=
  !conn.internal

/-- Writeback capability flag. -/
def DrmConnector.IsWriteback (conn : DrmConnector) : Bool :=
  conn.writeback

/-- Lookup in an association list modelling std::map (first matching key). -/
def alookup : List (Nat × Nat) → Nat → Option Nat
  | [], _ => none
  | (k, v) :: rest, k2 => if k = k2 then some v else alookup rest k2

/-- std::map subscript assignment: overwrite the key in place, or append
the new key at the end. -/
def ainsert : List (Nat × Nat) → Nat → Nat → List (Nat × Nat)
  | [], k, v => [(k, v)]
  | (k1, v1) :: rest, k, v =>
    if k1 = k then (k, v) :: rest else (k1, v1) :: ainsert rest k v

/-- List elements paired with their positions, starting from n.  Used to
model iteration over the device's owning vectors, where the position is
the identity of the object (C++ pointer). -/
def withIdx (n : Nat) : List α → List (Nat × α)
  | [] => []
  | a :: rest => (n, a) :: withIdx (n + 1) rest

/-- Device state: owned object collections plus the five binding maps of
DrmDevice.h (display ↦ crtc index, display ↦ connector index, connector
index ↦ display, encoder index ↦ display, crtc index ↦ encoder index). -/
structure DrmDevice where
  crtcs : List DrmCrtc := []
  encoders : List DrmEncoder := []
  connectors : List DrmConnector := []
  writeback_connectors : List DrmConnector := []
  bound_crtcs : List (Nat × Nat) := []
  bound_connectors : List (Nat × Nat) := []
  connectors_to_display_id : List (Nat × Nat) := []
  encoders_to_display_id : List (Nat × Nat) := []
  bound_encoders : List (Nat × Nat) := []
  HasAddFb2ModifiersSupport : Bool := false
deriving DecidableEq, Repr

/-- Device with all collections and maps empty. -/
def emptyDevice : DrmDevice := {}

/-- FindCrtcById: index of the first owned CRTC with the given kernel id. -/
def DrmDevice.FindCrtcById (dev : DrmDevice) (id : Nat) : Option Nat :=
  List.findIdx? (fun c => c.id == id) dev.crtcs

/-- FindEncoderById: index of the first owned encoder with the given kernel id. -/
def DrmDevice.FindEncoderById (dev : DrmDevice) (id : Nat) : Option Nat :=
  List.findIdx? (fun e => e.id == id) dev.encoders

/-- The two map assignments TryEncoderForDisplay performs when it binds a
CRTC: bound_crtcs_[display] = crtc and bound_encoders_[crtc] = enc. -/
def DrmDevice.bindPipe (dev : DrmDevice) (display crtcIdx encIdx : Nat) : DrmDevice :=
  { dev with
    bound_crtcs := ainsert dev.bound_crtcs display crtcIdx
    bound_encoders := ainsert dev.bound_encoders crtcIdx encIdx }

/-- The CRTC scan loop of TryEncoderForDisplay (DrmDevice.cpp lines
199-210): skip a CRTC the encoder cannot drive or that is the encoder's
current CRTC; otherwise bind when the display has no CRTC yet. -/
def tryCrtcScan (dev : DrmDevice) (display : Nat) (enc : DrmEncoder) (encIdx : Nat) :
    List (Nat × DrmCrtc) → Int × DrmDevice
  | [] => (-EAGAIN, dev)
  | (crtcIdx, crtc) :: rest =>
    if !enc.SupportsCrtc crtc || crtc.id == enc.current_crtc_id then
      tryCrtcScan dev display enc encIdx rest
    else if (alookup dev.bound_crtcs display).isNone then
      (0, dev.bindPipe display crtcIdx encIdx)
    else
      tryCrtcScan dev display enc encIdx rest

/-- TryEncoderForDisplay (DrmDevice.cpp lines 189-214): fast path on the
encoder's currently configured CRTC, then the scan loop; returns 0 on a
bind and -EAGAIN (retry) otherwise.  The encoder is given by its index
into the device's encoder vector; an out-of-range index (impossible at
the C++ call sites, which pass pointers into the vector) yields the
retry signal with the state unchanged. -/
def DrmDevice.TryEncoderForDisplay (dev : DrmDevice) (display : Nat) (encIdx : Nat) :
    Int × DrmDevice :=
  match dev.encoders[encIdx]? with
  | none => (-EAGAIN, dev)
  | some enc =>
    match dev.FindCrtcById enc.current_crtc_id with
    | some crtcIdx =>
      if (alookup dev.bound_crtcs display).isNone then
        (0, dev.bindPipe display crtcIdx encIdx)
      else
        tryCrtcScan dev display enc encIdx (withIdx 0 dev.crtcs)
    | none => tryCrtcScan dev display enc encIdx (withIdx 0 dev.crtcs)

/-- The encoder scan loop of CreateDisplayPipe (DrmDevice.cpp lines
233-249): skip encoders the connector cannot drive or that are already
claimed by a display; on a successful TryEncoderForDisplay commit the
encoder claim; propagate a non-retry error; exhausting the list is
-ENODEV ("could not find a suitable encoder/crtc"). -/
def tryEncoderScan (dev : DrmDevice) (display : Nat) (conn : DrmConnector) :
    List (Nat × DrmEncoder) → Int × DrmDevice
  | [] => (-ENODEV, dev)
  | (encIdx, enc) :: rest =>
    if !conn.SupportsEncoder enc || !(alookup dev.encoders_to_display_id encIdx).isNone then
      tryEncoderScan dev display conn rest
    else
      let r := dev.TryEncoderForDisplay display encIdx
      if r.1 == 0 then
        (0, { r.2 with
              encoders_to_display_id := ainsert r.2.encoders_to_display_id encIdx display })
      else if r.1 != -EAGAIN then
        (r.1, r.2)
      else
        tryEncoderScan r.2 display conn rest

/-- CreateDisplayPipe (DrmDevice.cpp lines 216-252).  The connector is
given by its index into the device's connector vector.  The display id
comes from connectors_to_display_id_.at(connector); a failing .at lookup
(std::out_of_range) is modelled as none.  First the connector's currently
configured encoder is attempted when it exists and is unclaimed, then the
encoder scan loop runs. -/
def DrmDevice.CreateDisplayPipe (dev : DrmDevice) (connIdx : Nat) :
    Option (Int × DrmDevice) := do
  let conn ← dev.connectors[connIdx]?
  let display ← alookup dev.connectors_to_display_id connIdx
  match dev.FindEncoderById conn.current_encoder_id with
  | some encIdx0 =>
    if (alookup dev.encoders_to_display_id encIdx0).isNone then
      let r := dev.TryEncoderForDisplay display encIdx0
      if r.1 == 0 then
        some (0, { r.2 with
                   encoders_to_display_id :=
                     ainsert r.2.encoders_to_display_id encIdx0 display })
      else if r.1 != -EAGAIN then
        some (r.1, r.2)
      else
        some (tryEncoderScan r.2 display conn (withIdx 0 r.2.encoders))
    else
      some (tryEncoderScan dev display conn (withIdx 0 dev.encoders))
  | none => some (tryEncoderScan dev display conn (withIdx 0 dev.encoders))

/-- Whether a connector falls in the priority class selected by the two
flags of the add_displays lambda (DrmDevice.cpp lines 128-138). -/
def classMatch (internal connected : Bool) (conn : DrmConnector) : Bool :=
  (if internal then conn.IsInternal else conn.IsExternal) &&
    (if connected then conn.IsConnected else !conn.IsConnected)

/-- Body of the add_displays lambda: walk the connector vector in order
and give each connector of the selected class the next display id. -/
def addDisplaysGo (internal connected : Bool) :
    List (Nat × DrmConnector) → DrmDevice → Nat → DrmDevice × Nat
  | [], dev, nd => (dev, nd)
  | (connIdx, conn) :: rest, dev, nd =>
    if classMatch internal connected conn then
      addDisplaysGo internal connected rest
        { dev with
          bound_connectors := ainsert dev.bound_connectors nd connIdx
          connectors_to_display_id := ainsert dev.connectors_to_display_id connIdx nd }
        (nd + 1)
    else
      addDisplaysGo internal connected rest dev nd

/-- One invocation of the add_displays lambda on the device's connectors. -/
def add_displays (dev : DrmDevice) (internal connected : Bool) (nd : Nat) :
    DrmDevice × Nat :=
  addDisplaysGo internal connected (withIdx 0 dev.connectors) dev nd

/-- The four add_displays calls of Init (DrmDevice.cpp lines 143-146):
internal+connected, external+connected, internal+disconnected,
external+disconnected. -/
def addDisplaysAll (dev : DrmDevice) (nd : Nat) : DrmDevice × Nat :=
  let p1 := add_displays dev true true nd
  let p2 := add_displays p1.1 false true p1.2
  let p3 := add_displays p2.1 true false p2.2
  add_displays p3.1 false false p3.2

/-- Sequence of add_displays invocations, eliding each pass result into
the next; the four calls of Init are one instance. -/
def addDisplaysPasses : List (Bool × Bool) → DrmDevice → Nat → DrmDevice × Nat
  | [], dev, nd => (dev, nd)
  | (i, c) :: rest, dev, nd =>
    addDisplaysPasses rest (add_displays dev i c nd).1 (add_displays dev i c nd).2

/-- The connector indices visited by a sequence of add_displays passes,
in visit order. -/
def passesOrder : List (Bool × Bool) → List DrmConnector → List Nat
  | [], _ => []
  | (i, c) :: rest, conns =>
    ((withIdx 0 conns).filter (fun q => classMatch i c q.2)).map Prod.fst ++
      passesOrder rest conns

/-- Connector enumeration split (DrmDevice.cpp lines 113-126): writeback
connectors go to writeback_connectors_, the rest to connectors_. -/
def splitConnectors : List DrmConnector → List DrmConnector × List DrmConnector
  | [] => ([], [])
  | conn :: rest =>
    let p := splitConnectors rest
    if conn.IsWriteback then (p.1, conn :: p.2) else (conn :: p.1, p.2)

/-- Kernel resource snapshot consumed by Init: the successfully
constructed objects in kernel enumeration order. -/
structure ResSnapshot where
  crtcs : List DrmCrtc
  encoders : List DrmEncoder
  connectors : List DrmConnector
deriving DecidableEq, Repr

/-- Outcomes of the kernel calls one Init run makes, in program order:
device open, the two required client capabilities, the optional writeback
capability, the ADDFB2_MODIFIERS capability probe, the master-access
check, the resource query, and the plane-resource query. -/
structure KernelEnv where
  open_ok : Bool
  universal_planes_ret : Int
  atomic_ret : Int
  writeback_ret : Int
  addfb2_modifiers_cap_ok : Bool
  addfb2_modifiers_cap_value : Nat
  is_master : Bool
  res : Option ResSnapshot
  plane_res_ok : Bool
deriving DecidableEq, Repr

/-- The pipe-creation loop of Init (DrmDevice.cpp lines 167-173): run
CreateDisplayPipe for each connector in order, stopping at the first
failure. -/
def pipeLoop (dev : DrmDevice) : List Nat → Option (Int × DrmDevice)
  | [] => some (0, dev)
  | connIdx :: rest =>
    match dev.CreateDisplayPipe connIdx with
    | none => none
    | some r => if r.1 == 0 then pipeLoop r.2 rest else some (r.1, r.2)

/-- Device state right after resource enumeration (DrmDevice.cpp lines
92-126): owned collections filled from the kernel snapshot, writeback
connectors split out, no bindings yet. -/
def enumDevice (res : ResSnapshot) (has_fb2 : Bool) : DrmDevice :=
  { emptyDevice with
    HasAddFb2ModifiersSupport := has_fb2
    crtcs := res.crtcs
    encoders := res.encoders
    connectors := (splitConnectors res.connectors).1
    writeback_connectors := (splitConnectors res.connectors).2 }

/-- DrmDevice::Init (DrmDevice.cpp lines 44-175), returning the status,
the reported display count, and the device state for observation.  A
none result models an uncaught C++ exception (std::map::at failure). -/
def DrmDevice.Init (env : KernelEnv) (num_displays : Nat) :
    Option (Int × Nat × DrmDevice) :=
  if !env.open_ok then some (-ENODEV, 0, emptyDevice) else
  if env.universal_planes_ret != 0 then some (env.universal_planes_ret, 0, emptyDevice) else
  if env.atomic_ret != 0 then some (env.atomic_ret, 0, emptyDevice) else
  let has_fb2 := env.addfb2_modifiers_cap_ok && env.addfb2_modifiers_cap_value != 0
  let dev0 : DrmDevice := { emptyDevice with HasAddFb2ModifiersSupport := has_fb2 }
  if !env.is_master then some (-EACCES, 0, dev0) else
  match env.res with
  | none => some (-ENODEV, 0, dev0)
  | some res =>
    let dev2 := (addDisplaysAll (enumDevice res has_fb2) num_displays).1
    if !env.plane_res_ok then some (-ENOENT, 0, dev2) else
    match pipeLoop dev2 (List.range dev2.connectors.length) with
    | none => none
    | some (ret, dev3) =>
      if ret != 0 then some (ret, 0, dev3)
      else some (0, dev3.bound_connectors.length, dev3)

/-- Modelled from the spec: ResourceManager::AddDrmDevice
(ResourceManager.cpp is not under src).  Spec section 7: fatal errors
abort device initialization entirely and "no device is registered in a
partially-initialized state"; spec section 4.6: each device continues the
display-id sequence from where the previous device left off.  The device
is kept only when Init succeeds. -/
def AddDrmDevice (env : KernelEnv) (num_displays : Nat) :
    Option (List DrmDevice × Nat) := do
  let r ← DrmDevice.Init env num_displays
  if r.1 == 0 then some ([r.2.2], num_displays + r.2.1) else some ([], num_displays)

/-- HandlesDisplay (DrmDevice.cpp lines 177-179): bound_connectors_.count != 0. -/
def DrmDevice.HandlesDisplay (dev : DrmDevice) (display : Nat) : Bool :=
  !(alookup dev.bound_connectors display).isNone

/-- GetConnectorForDisplay (DrmDevice.cpp lines 181-183): std::map::at,
whose out-of-range failure (thrown exception) is modelled as none. -/
def DrmDevice.GetConnectorForDisplay (dev : DrmDevice) (display : Nat) : Option Nat :=
  alookup dev.bound_connectors display

/-- GetCrtcForDisplay (DrmDevice.cpp lines 185-187): std::map::at, whose
out-of-range failure (thrown exception) is modelled as none. -/
def DrmDevice.GetCrtcForDisplay (dev : DrmDevice) (display : Nat) : Option Nat :=
  alookup dev.bound_crtcs display

/-- Property descriptor plus current value, as filled by property->Init
in GetProperty. -/
structure DrmProperty where
  obj_id : Nat
  name : String
  value : Nat
deriving DecidableEq, Repr

/-- GetProperty (DrmDevice.cpp lines 282-306).  The kernel's property
enumeration for the object is the input: none when
drmModeObjectGetProperties fails, otherwise the (name, value) pairs in
kernel order.  The scan stops at the first name match. -/
def DrmDevice.GetProperty (props : Option (List (String × Nat))) (obj_id : Nat)
    (prop_name : String) : Except Int DrmProperty :=
  match props with
  | none => .error (-ENODEV)
  | some ps =>
    match List.find? (fun p => p.1 == prop_name) ps with
    | some p => .ok ⟨obj_id, p.1, p.2⟩
    | none => .error (-ENOENT)

/-- RegisterUserPropertyBlob (DrmDevice.cpp lines 254-280): the
CREATEPROPBLOB ioctl outcome and the allocated blob id are the inputs; a
nonzero ioctl result yields the empty handle, success yields a handle
holding the blob id. -/
def DrmDevice.RegisterUserPropertyBlob (create_ret : Int) (blob_id : Nat) : Option Nat :=
  if create_ret != 0 then none else some blob_id

/-- The deleter installed on DrmModeUserPropertyBlobUnique (DrmDevice.cpp
lines 268-279): it issues exactly one DESTROYPROPBLOB ioctl for the held
blob id and only logs a nonzero ioctl result.  Returns the list of
destroy ioctl calls issued and the deleter's (void) result. -/
def blobDeleter (destroy_ret : Int) (blob_id : Nat) : List Nat × Unit :=
  let _ := destroy_ret
  ([blob_id], ())

/-- Modelled from the spec: the owning scope of a successfully created
handle runs the deleter exactly once, on every exit path
(std::unique_ptr semantics; the handle's owning scopes are not under
src).  The destroy ioctl calls observed over the handle's lifetime are
exactly those of one deleter run. -/
def blobScopeDestroyCalls (destroy_ret : Int) (blob_id : Nat) : List Nat :=
  (blobDeleter destroy_ret blob_id).1

/-- The combined state change of one confirmed connector assignment: the
display-to-CRTC, CRTC-to-encoder and encoder-to-display entries are
written together. -/
def commitPipe (dev : DrmDevice) (display crtcIdx encIdx : Nat) : DrmDevice :=
  { dev with
    bound_crtcs := ainsert dev.bound_crtcs display crtcIdx
    bound_encoders := ainsert dev.bound_encoders crtcIdx encIdx
    encoders_to_display_id := ainsert dev.encoders_to_display_id encIdx display }

/-- The connector visit order of the four add_displays calls: four
priority classes in order, enumeration order within each class.  Entries
pair each connector with its index in the connector vector. -/
def classOrder (conns : List DrmConnector) : List (Nat × DrmConnector) :=
  (withIdx 0 conns).filter (fun p => classMatch true true p.2) ++
    (withIdx 0 conns).filter (fun p => classMatch false true p.2) ++
      (withIdx 0 conns).filter (fun p => classMatch true false p.2) ++
        (withIdx 0 conns).filter (fun p => classMatch false false p.2)

/-- The display-to-CRTC binding map never binds one CRTC to two display ids. -/
def CrtcBindingInjective (dev : DrmDevice) : Prop :=
  ∀ d1 d2 c, alookup dev.bound_crtcs d1 = some c →
    alookup dev.bound_crtcs d2 = some c → d1 = d2

/-- The keys of an association list are pairwise distinct. -/
def keysNodup (m : List (Nat × Nat)) : Prop :=
  (m.map Prod.fst).Nodup

/-- Device of the spec's Scenario A: CRTCs 0 and 1, encoder E0 currently
on crtc0 and only able to drive it, encoder E1 only able to drive crtc1,
connector C0 internal connected with E0 current, connector C1 external
connected with no current encoder. -/
def envA : KernelEnv :=
  { open_ok := true, universal_planes_ret := 0, atomic_ret := 0, writeback_ret := 0
    addfb2_modifiers_cap_ok := true, addfb2_modifiers_cap_value := 1, is_master := true
    res := some
      { crtcs := [⟨100, 0⟩, ⟨101, 1⟩]
        encoders := [⟨10, 0, 100, 1⟩, ⟨11, 1, 0, 2⟩]
        connectors := [⟨20, 0, 10, [10], true, true, false⟩,
                       ⟨21, 1, 0, [11], true, false, false⟩] }
    plane_res_ok := true }

/-- Kernel state with a single CRTC, two encoders that can each drive
only that CRTC and have no current CRTC, and two connected connectors
each supporting one of the encoders. -/
def envShared : KernelEnv :=
  { open_ok := true, universal_planes_ret := 0, atomic_ret := 0, writeback_ret := 0
    addfb2_modifiers_cap_ok := true, addfb2_modifiers_cap_value := 1, is_master := true
    res := some
      { crtcs := [⟨1, 0⟩]
        encoders := [⟨10, 0, 0, 1⟩, ⟨11, 1, 0, 1⟩]
        connectors := [⟨20, 0, 0, [10], true, true, false⟩,
                       ⟨21, 1, 0, [11], true, false, false⟩] }
    plane_res_ok := true }

/-- The device state produced by a run of Init on envShared. -/
def devShared : DrmDevice :=
  ((DrmDevice.Init envShared 0).getD (0, 0, emptyDevice)).2.2

/-- Kernel state of the spec's Scenario B: one connected internal
connector whose supported-encoder set is empty. -/
def envNoEncoder : KernelEnv :=
  { open_ok := true, universal_planes_ret := 0, atomic_ret := 0, writeback_ret := 0
    addfb2_modifiers_cap_ok := true, addfb2_modifiers_cap_value := 1, is_master := true
    res := some
      { crtcs := [⟨1, 0⟩]
        encoders := [⟨10, 0, 0, 1⟩]
        connectors := [⟨20, 0, 0, [], true, true, false⟩] }
    plane_res_ok := true }

/-- The device state produced by a run of Init on envNoEncoder. -/
def devNoEncoder : DrmDevice :=
  ((DrmDevice.Init envNoEncoder 0).getD (0, 0, emptyDevice)).2.2

/-- The device state produced by a run of Init on envA. -/
def devA : DrmDevice :=
  ((DrmDevice.Init envA 0).getD (0, 0, emptyDevice)).2.2

/-- Kernel state whose universal-plane capability request fails. -/
def envFailUniversal : KernelEnv :=
  { open_ok := true, universal_planes_ret := -22, atomic_ret := 0, writeback_ret := 0
    addfb2_modifiers_cap_ok := true, addfb2_modifiers_cap_value := 1, is_master := true
    res := none, plane_res_ok := true }

/-- Device with one CRTC and one encoder able to drive it, used to
exercise the CRTC search. -/
def devOneCrtc : DrmDevice :=
  { emptyDevice with crtcs := [⟨1, 0⟩], encoders := [⟨10, 0, 0, 1⟩] }

/-! Basic lemmas about the map and indexing primitives. -/

lemma alookup_mem {m : List (Nat × Nat)} {k v : Nat} (h : alookup m k = some v) :
    (k, v) ∈ m := by
  induction m with
  | nil => simp [alookup] at h
  | cons p rest ih =>
    obtain ⟨k1, v1⟩ := p
    by_cases hk : k1 = k
    · subst hk
      simp [alookup] at h
      simp [h]
    · simp only [alookup, if_neg hk] at h
      exact List.mem_cons_of_mem _ (ih h)

lemma ainsert_of_fresh {m : List (Nat × Nat)} {k : Nat} (v : Nat)
    (h : ∀ p ∈ m, p.1 ≠ k) : ainsert m k v = m ++ [(k, v)] := by
  induction m with
  | nil => rfl
  | cons p rest ih =>
    obtain ⟨k1, v1⟩ := p
    have h1 : k1 ≠ k := h (k1, v1) (by simp)
    simp [ainsert, h1, ih (fun q hq => h q (by simp [hq]))]

lemma map_fst_ainsert (m : List (Nat × Nat)) (k v : Nat) :
    (ainsert m k v).map Prod.fst =
      if k ∈ m.map Prod.fst then m.map Prod.fst else m.map Prod.fst ++ [k] := by
  induction m with
  | nil => simp [ainsert]
  | cons p rest ih =>
    obtain ⟨k1, v1⟩ := p
    by_cases h : k1 = k
    · subst h
      simp [ainsert]
    · by_cases h2 : k ∈ rest.map Prod.fst
      · simp [ainsert, h, ih, h2, Ne.symm h]
      · simp [ainsert, h, ih, h2, Ne.symm h]

lemma keysNodup_ainsert {m : List (Nat × Nat)} (k v : Nat) (h : keysNodup m) :
    keysNodup (ainsert m k v) := by
  unfold keysNodup at h ⊢
  rw [map_fst_ainsert]
  by_cases hm : k ∈ m.map Prod.fst
  · simpa [hm]
  · simp [hm, List.nodup_append, h]

lemma keysNodup_eq_of_mem {m : List (Nat × Nat)} (h : keysNodup m) {k v1 v2 : Nat}
    (h1 : (k, v1) ∈ m) (h2 : (k, v2) ∈ m) : v1 = v2 := by
  induction m with
  | nil => simp at h1
  | cons p rest ih =>
    unfold keysNodup at h
    simp only [List.map_cons, List.nodup_cons] at h
    obtain ⟨hnk, hnd⟩ := h
    rcases List.mem_cons.mp h1 with e1 | e1 <;> rcases List.mem_cons.mp h2 with e2 | e2
    · exact (Prod.ext_iff.mp (e1.trans e2.symm)).2
    · exfalso
      have hk : p.1 = k := by rw [← e1]
      rw [hk] at hnk
      exact hnk (List.mem_map_of_mem Prod.fst e2)
    · exfalso
      have hk : p.1 = k := by rw [← e2]
      rw [hk] at hnk
      exact hnk (List.mem_map_of_mem Prod.fst e1)
    · exact ih hnd e1 e2

lemma length_withIdx (n : Nat) (l : List α) : (withIdx n l).length = l.length := by
  induction l generalizing n with
  | nil => rfl
  | cons a rest ih => simp [withIdx, ih]

lemma withIdx_append (n : Nat) (l1 l2 : List α) :
    withIdx n (l1 ++ l2) = withIdx n l1 ++ withIdx (n + l1.length) l2 := by
  induction l1 generalizing n with
  | nil => simp [withIdx]
  | cons a rest ih =>
    have e : n + 1 + rest.length = n + (rest.length + 1) := by omega
    simp [withIdx, ih, e, List.append_eq]

lemma mem_withIdx {l : List α} : ∀ {n : Nat} {p : Nat × α}, p ∈ withIdx n l →
    n ≤ p.1 ∧ p.1 < n + l.length ∧ l[p.1 - n]? = some p.2 := by
  induction l with
  | nil => intro n p h; simp [withIdx] at h
  | cons a rest ih =>
    intro n p h
    simp only [withIdx, List.mem_cons] at h
    rcases h with h | h
    · subst h
      refine ⟨Nat.le_refl _, by simp, ?_⟩
      simp
    · obtain ⟨h1, h2, h3⟩ := ih h
      refine ⟨by omega, by simp only [List.length_cons]; omega, ?_⟩
      have he : p.1 - n = (p.1 - (n + 1)) + 1 := by omega
      rw [he]
      simpa using h3

lemma mem_withIdx_of_mem {l : List α} {a : α} (h : a ∈ l) :
    ∀ n : Nat, ∃ i, (i, a) ∈ withIdx n l := by
  induction l with
  | nil => simp at h
  | cons b rest ih =>
    intro n
    rcases List.mem_cons.mp h with h1 | h1
    · exact ⟨n, by simp [withIdx, h1]⟩
    · obtain ⟨i, hi⟩ := ih h1 (n + 1)
      exact ⟨i, by simp only [withIdx, List.mem_cons]; exact Or.inr hi⟩

lemma nodup_map_fst_withIdx (n : Nat) (l : List α) :
    ((withIdx n l).map Prod.fst).Nodup := by
  induction l generalizing n with
  | nil => simp [withIdx]
  | cons a rest ih =>
    simp only [withIdx, List.map_cons, List.nodup_cons]
    refine ⟨?_, ih (n + 1)⟩
    intro hmem
    obtain ⟨p, hp, hfst⟩ := List.mem_map.mp hmem
    have := (mem_withIdx hp).1
    omega

lemma alookup_withIdx_head (n x : Nat) (xs : List Nat) :
    alookup (withIdx n (x :: xs)) n = some x := by
  simp [withIdx, alookup]

lemma find?_eq_head?_filter (p : α → Bool) : ∀ l : List α,
    List.find? p l = (l.filter p).head? := by
  intro l
  induction l with
  | nil => rfl
  | cons a rest ih =>
    cases hp : p a
    · rw [List.find?_cons_of_neg, List.filter_cons_of_neg, ih] <;> simp [hp]
    · rw [List.find?_cons_of_pos, List.filter_cons_of_pos] <;> simp [hp]

/-! Shape lemmas: each step of pipeline assignment either leaves the
device untouched with a retry/error status or performs one complete bind. -/

lemma tryCrtcScan_shape (dev : DrmDevice) (display : Nat) (enc : DrmEncoder) (encIdx : Nat) :
    ∀ l, tryCrtcScan dev display enc encIdx l = (-EAGAIN, dev) ∨
      ∃ c, tryCrtcScan dev display enc encIdx l = (0, dev.bindPipe display c encIdx) := by
  intro l
  induction l with
  | nil => left; rfl
  | cons p rest ih =>
    obtain ⟨cIdx, crtc⟩ := p
    by_cases h1 : (!enc.SupportsCrtc crtc || crtc.id == enc.current_crtc_id) = true
    · simpa [tryCrtcScan, h1] using ih
    · by_cases h2 : (alookup dev.bound_crtcs display).isNone = true
      · right
        exact ⟨cIdx, by simp [tryCrtcScan, h1, h2]⟩
      · simpa [tryCrtcScan, h1, h2] using ih

lemma tryEncoder_shape (dev : DrmDevice) (display encIdx : Nat) :
    dev.TryEncoderForDisplay display encIdx = (-EAGAIN, dev) ∨
      ∃ c, dev.TryEncoderForDisplay display encIdx = (0, dev.bindPipe display c encIdx) := by
  unfold DrmDevice.TryEncoderForDisplay
  split
  · left; rfl
  · rename_i enc henc
    split
    · rename_i cIdx hfind
      split
      · right; exact ⟨cIdx, rfl⟩
      · exact tryCrtcScan_shape dev display enc encIdx (withIdx 0 dev.crtcs)
    · exact tryCrtcScan_shape dev display enc encIdx (withIdx 0 dev.crtcs)

lemma tryEncoder_of_fail {dev : DrmDevice} {display encIdx : Nat}
    (h : (dev.TryEncoderForDisplay display encIdx).1 ≠ 0) :
    dev.TryEncoderForDisplay display encIdx = (-EAGAIN, dev) := by
  rcases tryEncoder_shape dev display encIdx with h1 | ⟨c, h1⟩
  · exact h1
  · rw [h1] at h
    simp at h

lemma tryEncoder_of_success {dev dev2 : DrmDevice} {display encIdx : Nat}
    (h : dev.TryEncoderForDisplay display encIdx = (0, dev2)) :
    ∃ c, dev2 = dev.bindPipe display c encIdx := by
  rcases tryEncoder_shape dev display encIdx with h1 | ⟨c, h1⟩
  · rw [h1] at h
    simp [EAGAIN] at h
  · rw [h1] at h
    exact ⟨c, (Prod.ext_iff.mp h).2.symm⟩

lemma bindPipe_then_claim (dev : DrmDevice) (display c e : Nat) :
    { dev.bindPipe display c e with
      encoders_to_display_id :=
        ainsert (dev.bindPipe display c e).encoders_to_display_id e display }
      = commitPipe dev display c e := rfl

lemma tryEncoderScan_cons (dev : DrmDevice) (display : Nat) (conn : DrmConnector)
    (encIdx : Nat) (enc : DrmEncoder) (rest : List (Nat × DrmEncoder)) :
    tryEncoderScan dev display conn ((encIdx, enc) :: rest) =
      if !conn.SupportsEncoder enc || !(alookup dev.encoders_to_display_id encIdx).isNone then
        tryEncoderScan dev display conn rest
      else
        let r := dev.TryEncoderForDisplay display encIdx
        if r.1 == 0 then
          (0, { r.2 with
                encoders_to_display_id := ainsert r.2.encoders_to_display_id encIdx display })
        else if r.1 != -EAGAIN then
          (r.1, r.2)
        else
          tryEncoderScan r.2 display conn rest := rfl

lemma tryEncoderScan_shape (display : Nat) (conn : DrmConnector) :
    ∀ (l : List (Nat × DrmEncoder)) (dev : DrmDevice),
      tryEncoderScan dev display conn l = (-ENODEV, dev) ∨
        ∃ c e, tryEncoderScan dev display conn l = (0, commitPipe dev display c e) := by
  intro l
  induction l with
  | nil => intro dev; left; rfl
  | cons p rest ih =>
    intro dev
    obtain ⟨encIdx, enc⟩ := p
    rw [tryEncoderScan_cons]
    by_cases h1 : (!conn.SupportsEncoder enc ||
        !(alookup dev.encoders_to_display_id encIdx).isNone) = true
    · rw [if_pos h1]
      exact ih dev
    · rw [if_neg h1]
      rcases tryEncoder_shape dev display encIdx with h2 | ⟨c, h2⟩
      · rw [h2]
        exact ih dev
      · right
        exact ⟨c, encIdx, by rw [h2]; rfl⟩

lemma createPipe_eq (dev : DrmDevice) (connIdx : Nat) :
    dev.CreateDisplayPipe connIdx =
      match dev.connectors[connIdx]? with
      | none => none
      | some conn =>
        match alookup dev.connectors_to_display_id connIdx with
        | none => none
        | some display =>
          match dev.FindEncoderById conn.current_encoder_id with
          | some encIdx0 =>
            if (alookup dev.encoders_to_display_id encIdx0).isNone then
              let r := dev.TryEncoderForDisplay display encIdx0
              if r.1 == 0 then
                some (0, { r.2 with
                           encoders_to_display_id :=
                             ainsert r.2.encoders_to_display_id encIdx0 display })
              else if r.1 != -EAGAIN then
                some (r.1, r.2)
              else
                some (tryEncoderScan r.2 display conn (withIdx 0 r.2.encoders))
            else
              some (tryEncoderScan dev display conn (withIdx 0 dev.encoders))
          | none => some (tryEncoderScan dev display conn (withIdx 0 dev.encoders)) := by
  cases hc : dev.connectors[connIdx]? with
  | none =>
    unfold DrmDevice.CreateDisplayPipe
    rw [hc]
    rfl
  | some conn =>
    cases hd : alookup dev.connectors_to_display_id connIdx with
    | none =>
      unfold DrmDevice.CreateDisplayPipe
      rw [hc]
      show alookup dev.connectors_to_display_id connIdx >>= _ = _
      rw [hd]
      rfl
    | some display =>
      unfold DrmDevice.CreateDisplayPipe
      rw [hc]
      show alookup dev.connectors_to_display_id connIdx >>= _ = _
      rw [hd]
      rfl

lemma createPipe_shape (dev : DrmDevice) (connIdx : Nat) :
    dev.CreateDisplayPipe connIdx = none ∨
      dev.CreateDisplayPipe connIdx = some (-ENODEV, dev) ∨
        ∃ d c e, dev.CreateDisplayPipe connIdx = some (0, commitPipe dev d c e) := by
  cases hc : dev.connectors[connIdx]? with
  | none =>
    left
    simp [createPipe_eq, hc]
  | some conn =>
    cases hd : alookup dev.connectors_to_display_id connIdx with
    | none =>
      left
      simp [createPipe_eq, hc, hd]
    | some display =>
      have scanOut : ∀ X, X = some (tryEncoderScan dev display conn (withIdx 0 dev.encoders)) →
          (X = none ∨ X = some (-ENODEV, dev) ∨
            ∃ d c e, X = some (0, commitPipe dev d c e)) := by
        intro X hX
        rcases tryEncoderScan_shape display conn (withIdx 0 dev.encoders) dev with h3 | ⟨c, e, h3⟩
        · right; left; rw [hX, h3]
        · right; right; exact ⟨display, c, e, by rw [hX, h3]⟩
      cases he : dev.FindEncoderById conn.current_encoder_id with
      | none =>
        refine scanOut _ ?_
        simp only [createPipe_eq, hc, hd, he]
      | some encIdx0 =>
        by_cases hcl : (alookup dev.encoders_to_display_id encIdx0).isNone = true
        · rcases tryEncoder_shape dev display encIdx0 with h2 | ⟨c, h2⟩
          · refine scanOut _ ?_
            simp only [createPipe_eq, hc, hd, he]
            rw [if_pos hcl, h2]
            rfl
          · right; right
            refine ⟨display, c, encIdx0, ?_⟩
            simp only [createPipe_eq, hc, hd, he]
            rw [if_pos hcl, h2]
            rfl
        · refine scanOut _ ?_
          simp only [createPipe_eq, hc, hd, he]
          rw [if_neg hcl]

lemma createPipe_of_fail {dev dev2 : DrmDevice} {connIdx : Nat} {r : Int}
    (h : dev.CreateDisplayPipe connIdx = some (r, dev2)) (hr : r ≠ 0) :
    r = -ENODEV ∧ dev2 = dev := by
  rcases createPipe_shape dev connIdx with h1 | h1 | ⟨d, c, e, h1⟩
  · rw [h1] at h; simp at h
  · rw [h1] at h
    simp at h
    exact ⟨h.1.symm, h.2.symm⟩
  · rw [h1] at h
    simp at h
    exact absurd h.1.symm hr

lemma createPipe_of_success {dev dev2 : DrmDevice} {connIdx : Nat}
    (h : dev.CreateDisplayPipe connIdx = some (0, dev2)) :
    ∃ d c e, dev2 = commitPipe dev d c e := by
  rcases createPipe_shape dev connIdx with h1 | h1 | ⟨d, c, e, h1⟩
  · rw [h1] at h; simp at h
  · rw [h1] at h
    simp [ENODEV] at h
  · rw [h1] at h
    simp at h
    exact ⟨d, c, e, h.symm⟩

lemma commitPipe_fields (dev : DrmDevice) (d c e : Nat) :
    (commitPipe dev d c e).connectors = dev.connectors ∧
    (commitPipe dev d c e).writeback_connectors = dev.writeback_connectors ∧
    (commitPipe dev d c e).bound_connectors = dev.bound_connectors ∧
    (commitPipe dev d c e).connectors_to_display_id = dev.connectors_to_display_id ∧
    (commitPipe dev d c e).crtcs = dev.crtcs ∧
    (commitPipe dev d c e).encoders = dev.encoders ∧
    (commitPipe dev d c e).HasAddFb2ModifiersSupport = dev.HasAddFb2ModifiersSupport := by
  simp [commitPipe]

lemma createPipe_preserves {dev dev2 : DrmDevice} {connIdx : Nat} {r : Int}
    (h : dev.CreateDisplayPipe connIdx = some (r, dev2)) :
    dev2.connectors = dev.connectors ∧
    dev2.writeback_connectors = dev.writeback_connectors ∧
    dev2.bound_connectors = dev.bound_connectors ∧
    dev2.connectors_to_display_id = dev.connectors_to_display_id ∧
    dev2.crtcs = dev.crtcs ∧
    dev2.encoders = dev.encoders ∧
    dev2.HasAddFb2ModifiersSupport = dev.HasAddFb2ModifiersSupport ∧
    (keysNodup dev.encoders_to_display_id → keysNodup dev2.encoders_to_display_id) := by
  by_cases hr : r = 0
  · subst hr
    obtain ⟨d, c, e, he⟩ := createPipe_of_success h
    subst he
    refine ⟨?_, ?_, ?_, ?_, ?_, ?_, ?_, fun hk => ?_⟩ <;> simp [commitPipe]
    exact keysNodup_ainsert e d hk
  · obtain ⟨-, he⟩ := createPipe_of_fail h hr
    subst he
    exact ⟨rfl, rfl, rfl, rfl, rfl, rfl, rfl, id⟩

lemma pipeLoop_cons (dev : DrmDevice) (connIdx : Nat) (rest : List Nat) :
    pipeLoop dev (connIdx :: rest) =
      match dev.CreateDisplayPipe connIdx with
      | none => none
      | some r => if r.1 == 0 then pipeLoop r.2 rest else some (r.1, r.2) := rfl

lemma pipeLoop_preserves : ∀ (l : List Nat) (dev : DrmDevice) (r : Int) (dev2 : DrmDevice),
    pipeLoop dev l = some (r, dev2) →
    dev2.connectors = dev.connectors ∧
    dev2.writeback_connectors = dev.writeback_connectors ∧
    dev2.bound_connectors = dev.bound_connectors ∧
    dev2.HasAddFb2ModifiersSupport = dev.HasAddFb2ModifiersSupport ∧
    (keysNodup dev.encoders_to_display_id → keysNodup dev2.encoders_to_display_id) := by
  intro l
  induction l with
  | nil =>
    intro dev r dev2 h
    simp [pipeLoop] at h
    rw [← h.2]
    exact ⟨rfl, rfl, rfl, rfl, id⟩
  | cons connIdx rest ih =>
    intro dev r dev2 h
    rw [pipeLoop_cons] at h
    cases hc : dev.CreateDisplayPipe connIdx with
    | none =>
      simp only [hc] at h
      exact Option.noConfusion h
    | some r0 =>
      simp only [hc] at h
      have hpres : dev.CreateDisplayPipe connIdx = some (r0.1, r0.2) := by rw [hc]
      obtain ⟨hco, hwb, hbc, hc2d, hcr, hen, hfb, hkn⟩ := createPipe_preserves hpres
      by_cases h0 : (r0.1 == 0) = true
      · rw [if_pos h0] at h
        obtain ⟨a, b, c, f, d⟩ := ih r0.2 r dev2 h
        exact ⟨a.trans hco, b.trans hwb, c.trans hbc, f.trans hfb, fun hk => d (hkn hk)⟩
      · rw [if_neg h0] at h
        have h2 : r0.2 = dev2 := congrArg Prod.snd (Option.some.inj h)
        rw [← h2]
        exact ⟨hco, hwb, hbc, hfb, hkn⟩

/-! Characterization of the add_displays passes. -/

lemma addDisplaysGo_cons (i c : Bool) (connIdx : Nat) (conn : DrmConnector)
    (rest : List (Nat × DrmConnector)) (dev : DrmDevice) (nd : Nat) :
    addDisplaysGo i c ((connIdx, conn) :: rest) dev nd =
      if classMatch i c conn then
        addDisplaysGo i c rest
          { dev with
            bound_connectors := ainsert dev.bound_connectors nd connIdx
            connectors_to_display_id := ainsert dev.connectors_to_display_id connIdx nd }
          (nd + 1)
      else
        addDisplaysGo i c rest dev nd := rfl

lemma addDisplaysGo_fields (i c : Bool) : ∀ (l : List (Nat × DrmConnector))
    (dev : DrmDevice) (nd : Nat),
    (addDisplaysGo i c l dev nd).1.crtcs = dev.crtcs ∧
    (addDisplaysGo i c l dev nd).1.encoders = dev.encoders ∧
    (addDisplaysGo i c l dev nd).1.connectors = dev.connectors ∧
    (addDisplaysGo i c l dev nd).1.writeback_connectors = dev.writeback_connectors ∧
    (addDisplaysGo i c l dev nd).1.bound_crtcs = dev.bound_crtcs ∧
    (addDisplaysGo i c l dev nd).1.encoders_to_display_id = dev.encoders_to_display_id ∧
    (addDisplaysGo i c l dev nd).1.bound_encoders = dev.bound_encoders ∧
    (addDisplaysGo i c l dev nd).1.HasAddFb2ModifiersSupport = dev.HasAddFb2ModifiersSupport := by
  intro l
  induction l with
  | nil => intro dev nd; exact ⟨rfl, rfl, rfl, rfl, rfl, rfl, rfl, rfl⟩
  | cons p rest ih =>
    intro dev nd
    obtain ⟨connIdx, conn⟩ := p
    by_cases hm : classMatch i c conn = true
    · rw [addDisplaysGo_cons, if_pos hm]
      exact ih _ _
    · rw [addDisplaysGo_cons, if_neg hm]
      exact ih dev nd

lemma addDisplaysGo_bc (i c : Bool) : ∀ (l : List (Nat × DrmConnector))
    (dev : DrmDevice) (nd : Nat),
    (∀ q ∈ dev.bound_connectors, q.1 < nd) →
    (addDisplaysGo i c l dev nd).1.bound_connectors
        = dev.bound_connectors ++
            withIdx nd ((l.filter (fun q => classMatch i c q.2)).map Prod.fst) ∧
    (addDisplaysGo i c l dev nd).2 = nd + (l.filter (fun q => classMatch i c q.2)).length := by
  intro l
  induction l with
  | nil =>
    intro dev nd h
    exact ⟨by simp [addDisplaysGo, withIdx], by simp [addDisplaysGo]⟩
  | cons p rest ih =>
    intro dev nd h
    obtain ⟨connIdx, conn⟩ := p
    by_cases hm : classMatch i c conn = true
    · rw [addDisplaysGo_cons, if_pos hm]
      have hfresh : ∀ q ∈ dev.bound_connectors, q.1 ≠ nd := fun q hq => Nat.ne_of_lt (h q hq)
      have hai : ainsert dev.bound_connectors nd connIdx
          = dev.bound_connectors ++ [(nd, connIdx)] := ainsert_of_fresh _ hfresh
      have hlt : ∀ q ∈ ({ dev with
            bound_connectors := ainsert dev.bound_connectors nd connIdx
            connectors_to_display_id :=
              ainsert dev.connectors_to_display_id connIdx nd } : DrmDevice).bound_connectors,
          q.1 < nd + 1 := by
        intro q hq
        dsimp only at hq
        rw [hai] at hq
        rcases List.mem_append.mp hq with hq | hq
        · exact Nat.lt_succ_of_lt (h q hq)
        · rw [List.mem_singleton] at hq
          subst hq
          exact Nat.lt_succ_self nd
      obtain ⟨h1, h2⟩ := ih _ (nd + 1) hlt
      have hfil : List.filter (fun q => classMatch i c q.2) ((connIdx, conn) :: rest)
          = (connIdx, conn) :: List.filter (fun q => classMatch i c q.2) rest := by
        simp [List.filter_cons, hm]
      constructor
      · rw [h1]
        dsimp only
        rw [hai, hfil, List.append_assoc]
        rfl
      · rw [h2, hfil]
        simp only [List.length_cons]
        omega
    · rw [addDisplaysGo_cons, if_neg hm]
      obtain ⟨h1, h2⟩ := ih dev nd h
      have hfil : List.filter (fun q => classMatch i c q.2) ((connIdx, conn) :: rest)
          = List.filter (fun q => classMatch i c q.2) rest := by
        simp [List.filter_cons]
        simpa using hm
      rw [hfil]
      exact ⟨h1, h2⟩

lemma withIdx_keys_lt {xs : List Nat} {nd : Nat} :
    ∀ q ∈ withIdx nd xs, q.1 < nd + xs.length := by
  intro q hq
  have := mem_withIdx hq
  omega

lemma addDisplaysPasses_spec : ∀ (ps : List (Bool × Bool)) (dev : DrmDevice)
    (nd0 : Nat) (acc : List Nat),
    dev.bound_connectors = withIdx nd0 acc →
    (addDisplaysPasses ps dev (nd0 + acc.length)).1.bound_connectors
        = withIdx nd0 (acc ++ passesOrder ps dev.connectors) ∧
    (addDisplaysPasses ps dev (nd0 + acc.length)).2
        = nd0 + (acc ++ passesOrder ps dev.connectors).length ∧
    (addDisplaysPasses ps dev (nd0 + acc.length)).1.connectors = dev.connectors ∧
    (addDisplaysPasses ps dev (nd0 + acc.length)).1.crtcs = dev.crtcs ∧
    (addDisplaysPasses ps dev (nd0 + acc.length)).1.encoders = dev.encoders ∧
    (addDisplaysPasses ps dev (nd0 + acc.length)).1.writeback_connectors
        = dev.writeback_connectors ∧
    (addDisplaysPasses ps dev (nd0 + acc.length)).1.encoders_to_display_id
        = dev.encoders_to_display_id ∧
    (addDisplaysPasses ps dev (nd0 + acc.length)).1.bound_crtcs = dev.bound_crtcs ∧
    (addDisplaysPasses ps dev (nd0 + acc.length)).1.bound_encoders = dev.bound_encoders ∧
    (addDisplaysPasses ps dev (nd0 + acc.length)).1.HasAddFb2ModifiersSupport
        = dev.HasAddFb2ModifiersSupport := by
  intro ps
  induction ps with
  | nil =>
    intro dev nd0 acc hbc
    refine ⟨?_, ?_, rfl, rfl, rfl, rfl, rfl, rfl, rfl, rfl⟩
    · simpa [addDisplaysPasses, passesOrder] using hbc
    · simp [addDisplaysPasses, passesOrder]
  | cons p rest ih =>
    intro dev nd0 acc hbc
    obtain ⟨i, c⟩ := p
    have hlt : ∀ q ∈ dev.bound_connectors, q.1 < nd0 + acc.length := by
      intro q hq
      rw [hbc] at hq
      exact withIdx_keys_lt q hq
    obtain ⟨b1, n1⟩ :=
      addDisplaysGo_bc i c (withIdx 0 dev.connectors) dev (nd0 + acc.length) hlt
    obtain ⟨f1, f2, f3, f4, f5, f6, f7, f8⟩ :=
      addDisplaysGo_fields i c (withIdx 0 dev.connectors) dev (nd0 + acc.length)
    have hbc2 : (addDisplaysGo i c (withIdx 0 dev.connectors) dev
          (nd0 + acc.length)).1.bound_connectors
        = withIdx nd0 (acc ++ (((withIdx 0 dev.connectors).filter
            (fun q => classMatch i c q.2)).map Prod.fst)) := by
      rw [b1, hbc, withIdx_append]
    have hlen : (addDisplaysGo i c (withIdx 0 dev.connectors) dev (nd0 + acc.length)).2
        = nd0 + (acc ++ (((withIdx 0 dev.connectors).filter
            (fun q => classMatch i c q.2)).map Prod.fst)).length := by
      rw [n1]
      simp [List.length_append, List.length_map]
      omega
    have hstep : addDisplaysPasses ((i, c) :: rest) dev (nd0 + acc.length)
        = addDisplaysPasses rest
            (addDisplaysGo i c (withIdx 0 dev.connectors) dev (nd0 + acc.length)).1
            (nd0 + (acc ++ (((withIdx 0 dev.connectors).filter
              (fun q => classMatch i c q.2)).map Prod.fst)).length) := by
      rw [addDisplaysPasses]
      rw [show add_displays dev i c (nd0 + acc.length)
            = addDisplaysGo i c (withIdx 0 dev.connectors) dev (nd0 + acc.length) from rfl]
      rw [hlen]
    obtain ⟨g1, g2, g3, g4, g5, g6, g7, g8, g9, g10⟩ :=
      ih (addDisplaysGo i c (withIdx 0 dev.connectors) dev (nd0 + acc.length)).1 nd0
        (acc ++ (((withIdx 0 dev.connectors).filter
          (fun q => classMatch i c q.2)).map Prod.fst)) hbc2
    rw [hstep]
    rw [f3] at g1 g2 g3
    simp only [passesOrder, List.append_assoc] at g1 g2 ⊢
    exact ⟨g1, g2, g3, g4.trans f1, g5.trans f2, g6.trans f4, g7.trans f6,
      g8.trans f5, g9.trans f7, g10.trans f8⟩

lemma addDisplaysAll_eq_passes (dev : DrmDevice) (nd : Nat) :
    addDisplaysAll dev nd =
      addDisplaysPasses [(true, true), (false, true), (true, false), (false, false)] dev nd :=
  rfl

lemma passesOrder_classOrder (conns : List DrmConnector) :
    passesOrder [(true, true), (false, true), (true, false), (false, false)] conns
      = (classOrder conns).map Prod.fst := by
  simp [passesOrder, classOrder, List.map_append, List.append_assoc]

lemma addDisplaysAll_spec (dev : DrmDevice) (nd : Nat) (h : dev.bound_connectors = []) :
    (addDisplaysAll dev nd).1.bound_connectors
        = withIdx nd ((classOrder dev.connectors).map Prod.fst) ∧
    (addDisplaysAll dev nd).2 = nd + (classOrder dev.connectors).length ∧
    (addDisplaysAll dev nd).1.connectors = dev.connectors ∧
    (addDisplaysAll dev nd).1.crtcs = dev.crtcs ∧
    (addDisplaysAll dev nd).1.encoders = dev.encoders ∧
    (addDisplaysAll dev nd).1.writeback_connectors = dev.writeback_connectors ∧
    (addDisplaysAll dev nd).1.encoders_to_display_id = dev.encoders_to_display_id ∧
    (addDisplaysAll dev nd).1.bound_crtcs = dev.bound_crtcs ∧
    (addDisplaysAll dev nd).1.bound_encoders = dev.bound_encoders ∧
    (addDisplaysAll dev nd).1.HasAddFb2ModifiersSupport = dev.HasAddFb2ModifiersSupport := by
  have hnd : nd = nd + ([] : List Nat).length := rfl
  obtain ⟨g1, g2, g3, g4, g5, g6, g7, g8, g9, g10⟩ :=
    addDisplaysPasses_spec [(true, true), (false, true), (true, false), (false, false)]
      dev nd [] (by simpa [withIdx] using h)
  rw [addDisplaysAll_eq_passes, hnd]
  rw [passesOrder_classOrder] at g1 g2
  simp only [List.nil_append] at g1 g2
  refine ⟨g1, ?_, g3, g4, g5, g6, g7, g8, g9, g10⟩
  rw [g2]
  simp [List.length_map]

/-! Shape of the device state Init produces. -/

lemma splitConnectors_fst : ∀ (l : List DrmConnector),
    ∀ conn ∈ (splitConnectors l).1, conn.IsWriteback = false := by
  intro l
  induction l with
  | nil => intro conn h; simp [splitConnectors] at h
  | cons a rest ih =>
    intro conn h
    simp only [splitConnectors] at h
    by_cases hw : a.IsWriteback = true
    · rw [if_pos hw] at h
      exact ih conn h
    · rw [if_neg hw] at h
      rcases List.mem_cons.mp h with h1 | h1
      · subst h1
        simpa using hw
      · exact ih conn h1

lemma splitConnectors_snd : ∀ (l : List DrmConnector),
    ∀ conn ∈ (splitConnectors l).2, conn.IsWriteback = true := by
  intro l
  induction l with
  | nil => intro conn h; simp [splitConnectors] at h
  | cons a rest ih =>
    intro conn h
    simp only [splitConnectors] at h
    by_cases hw : a.IsWriteback = true
    · rw [if_pos hw] at h
      rcases List.mem_cons.mp h with h1 | h1
      · subst h1
        exact hw
      · exact ih conn h1
    · rw [if_neg hw] at h
      exact ih conn h

lemma enumDevice_addDisplays (res : ResSnapshot) (hf : Bool) (nd : Nat) :
    (addDisplaysAll (enumDevice res hf) nd).1.connectors
        = (splitConnectors res.connectors).1 ∧
    (addDisplaysAll (enumDevice res hf) nd).1.writeback_connectors
        = (splitConnectors res.connectors).2 ∧
    (addDisplaysAll (enumDevice res hf) nd).1.bound_connectors
        = withIdx nd ((classOrder (splitConnectors res.connectors).1).map Prod.fst) ∧
    (addDisplaysAll (enumDevice res hf) nd).1.encoders_to_display_id = [] := by
  obtain ⟨g1, g2, g3, g4, g5, g6, g7, g8, g9, g10⟩ :=
    addDisplaysAll_spec (enumDevice res hf) nd rfl
  refine ⟨g3.trans rfl, g6.trans rfl, ?_, g7.trans rfl⟩
  rw [g1]
  rw [show (enumDevice res hf).connectors = (splitConnectors res.connectors).1 from rfl]

lemma init_shape {env : KernelEnv} {nd : Nat} {r : Int} {cnt : Nat} {dev : DrmDevice}
    (h : DrmDevice.Init env nd = some (r, cnt, dev)) :
    keysNodup dev.encoders_to_display_id ∧
    ((dev.connectors = [] ∧ dev.writeback_connectors = [] ∧ dev.bound_connectors = []) ∨
     (∃ res, env.res = some res ∧
        dev.connectors = (splitConnectors res.connectors).1 ∧
        dev.writeback_connectors = (splitConnectors res.connectors).2 ∧
        dev.bound_connectors =
          withIdx nd ((classOrder (splitConnectors res.connectors).1).map Prod.fst))) := by
  have emptyCase : ∀ dev0 : DrmDevice, dev0 = dev →
      dev0.encoders_to_display_id = [] →
      dev0.connectors = [] → dev0.writeback_connectors = [] →
      dev0.bound_connectors = [] →
      keysNodup dev.encoders_to_display_id ∧
      ((dev.connectors = [] ∧ dev.writeback_connectors = [] ∧ dev.bound_connectors = []) ∨
       (∃ res, env.res = some res ∧
          dev.connectors = (splitConnectors res.connectors).1 ∧
          dev.writeback_connectors = (splitConnectors res.connectors).2 ∧
          dev.bound_connectors =
            withIdx nd ((classOrder (splitConnectors res.connectors).1).map Prod.fst))) := by
    intro dev0 he h1 h2 h3 h4
    subst he
    refine ⟨?_, Or.inl ⟨h2, h3, h4⟩⟩
    rw [h1]
    exact List.nodup_nil
  simp only [DrmDevice.Init] at h
  split at h
  · exact emptyCase _ (congrArg (fun t => t.2.2) (Option.some.inj h)) rfl rfl rfl rfl
  · split at h
    · exact emptyCase _ (congrArg (fun t => t.2.2) (Option.some.inj h)) rfl rfl rfl rfl
    · split at h
      · exact emptyCase _ (congrArg (fun t => t.2.2) (Option.some.inj h)) rfl rfl rfl rfl
      · split at h
        · exact emptyCase _ (congrArg (fun t => t.2.2) (Option.some.inj h)) rfl rfl rfl rfl
        · split at h
          · exact emptyCase _ (congrArg (fun t => t.2.2) (Option.some.inj h)) rfl rfl rfl rfl
          · rename_i res hres
            obtain ⟨e1, e2, e3, e4⟩ := enumDevice_addDisplays res
              (env.addfb2_modifiers_cap_ok && env.addfb2_modifiers_cap_value != 0) nd
            split at h
            · have hdev := congrArg (fun t : Int × Nat × DrmDevice => t.2.2) (Option.some.inj h)
              simp only at hdev
              rw [← hdev]
              refine ⟨?_, Or.inr ⟨res, hres, e1, e2, e3⟩⟩
              rw [e4]
              exact List.nodup_nil
            · split at h
              · exact Option.noConfusion h
              · rename_i ret0 dev3 hpipe
                obtain ⟨p1, p2, p3, p5, p4⟩ := pipeLoop_preserves _ _ _ _ hpipe
                have hkn : keysNodup dev3.encoders_to_display_id := by
                  apply p4
                  rw [e4]
                  exact List.nodup_nil
                have hshape : dev3.connectors = (splitConnectors res.connectors).1 ∧
                    dev3.writeback_connectors = (splitConnectors res.connectors).2 ∧
                    dev3.bound_connectors = withIdx nd
                      ((classOrder (splitConnectors res.connectors).1).map Prod.fst) :=
                  ⟨p1.trans e1, p2.trans e2, p3.trans e3⟩
                split at h
                · have hdev := congrArg (fun t : Int × Nat × DrmDevice => t.2.2)
                    (Option.some.inj h)
                  simp only at hdev
                  rw [← hdev]
                  exact ⟨hkn, Or.inr ⟨res, hres, hshape.1, hshape.2.1, hshape.2.2⟩⟩
                · have hdev := congrArg (fun t : Int × Nat × DrmDevice => t.2.2)
                    (Option.some.inj h)
                  simp only at hdev
                  rw [← hdev]
                  exact ⟨hkn, Or.inr ⟨res, hres, hshape.1, hshape.2.1, hshape.2.2⟩⟩

/-! Characterization of the CRTC search and further Init facts. -/

lemma tryCrtcScan_cons (dev : DrmDevice) (display : Nat) (enc : DrmEncoder) (encIdx : Nat)
    (crtcIdx : Nat) (crtc : DrmCrtc) (rest : List (Nat × DrmCrtc)) :
    tryCrtcScan dev display enc encIdx ((crtcIdx, crtc) :: rest) =
      if !enc.SupportsCrtc crtc || crtc.id == enc.current_crtc_id then
        tryCrtcScan dev display enc encIdx rest
      else if (alookup dev.bound_crtcs display).isNone then
        (0, dev.bindPipe display crtcIdx encIdx)
      else
        tryCrtcScan dev display enc encIdx rest := rfl

lemma tryCrtcScan_find (dev : DrmDevice) (display : Nat) (enc : DrmEncoder) (encIdx : Nat)
    (hun : (alookup dev.bound_crtcs display).isNone = true) :
    ∀ l, tryCrtcScan dev display enc encIdx l =
      match List.find? (fun p => enc.SupportsCrtc p.2 && p.2.id != enc.current_crtc_id) l with
      | some p => (0, dev.bindPipe display p.1 encIdx)
      | none => (-EAGAIN, dev) := by
  intro l
  induction l with
  | nil => rfl
  | cons p rest ih =>
    obtain ⟨crtcIdx, crtc⟩ := p
    by_cases hskip : (!enc.SupportsCrtc crtc || crtc.id == enc.current_crtc_id) = true
    · have hpred : (enc.SupportsCrtc crtc && (crtc.id != enc.current_crtc_id)) = false := by
        cases hs : enc.SupportsCrtc crtc <;>
          cases hc : crtc.id == enc.current_crtc_id <;> simp_all
      rw [tryCrtcScan_cons, if_pos hskip, ih]
      have hfind : List.find?
            (fun p : Nat × DrmCrtc => enc.SupportsCrtc p.2 && p.2.id != enc.current_crtc_id)
            ((crtcIdx, crtc) :: rest)
          = List.find?
            (fun p : Nat × DrmCrtc => enc.SupportsCrtc p.2 && p.2.id != enc.current_crtc_id)
            rest := by
        rw [List.find?_cons_of_neg]
        simp [hpred]
      rw [hfind]
    · have hpred : (enc.SupportsCrtc crtc && (crtc.id != enc.current_crtc_id)) = true := by
        cases hs : enc.SupportsCrtc crtc <;>
          cases hc : crtc.id == enc.current_crtc_id <;> simp_all
      rw [tryCrtcScan_cons, if_neg hskip, if_pos hun]
      have hfind : List.find?
            (fun p : Nat × DrmCrtc => enc.SupportsCrtc p.2 && p.2.id != enc.current_crtc_id)
            ((crtcIdx, crtc) :: rest)
          = some (crtcIdx, crtc) := by
        rw [List.find?_cons_of_pos]
        exact hpred
      rw [hfind]

lemma tryEncoder_char (dev : DrmDevice) (display encIdx : Nat) (enc : DrmEncoder)
    (henc : dev.encoders[encIdx]? = some enc)
    (hun : (alookup dev.bound_crtcs display).isNone = true) :
    dev.TryEncoderForDisplay display encIdx =
      match dev.FindCrtcById enc.current_crtc_id with
      | some crtcIdx => (0, dev.bindPipe display crtcIdx encIdx)
      | none =>
        match List.find? (fun p => enc.SupportsCrtc p.2 && p.2.id != enc.current_crtc_id)
            (withIdx 0 dev.crtcs) with
        | some p => (0, dev.bindPipe display p.1 encIdx)
        | none => (-EAGAIN, dev) := by
  unfold DrmDevice.TryEncoderForDisplay
  simp only [henc]
  cases hf : dev.FindCrtcById enc.current_crtc_id with
  | some crtcIdx =>
    simp only [hf]
    rw [if_pos hun]
  | none =>
    simp only [hf]
    exact tryCrtcScan_find dev display enc encIdx hun (withIdx 0 dev.crtcs)

lemma some_triple_dev {a : Int} {b : Nat} {c : DrmDevice} {r : Int} {cnt : Nat}
    {dev : DrmDevice} (h : some (a, b, c) = some (r, cnt, dev)) : c = dev :=
  congrArg (fun t : Int × Nat × DrmDevice => t.2.2) (Option.some.inj h)

lemma init_fail_cnt {env : KernelEnv} {nd : Nat} {r : Int} {cnt : Nat} {dev : DrmDevice}
    (h : DrmDevice.Init env nd = some (r, cnt, dev)) (hr : r ≠ 0) : cnt = 0 := by
  simp only [DrmDevice.Init] at h
  repeat' split at h
  all_goals try exact Option.noConfusion h
  all_goals first
    | exact (congrArg (fun t : Int × Nat × DrmDevice => t.2.1) (Option.some.inj h)).symm
    | exact absurd (congrArg (fun t : Int × Nat × DrmDevice => t.1) (Option.some.inj h)).symm hr

lemma init_hasfb2_false {env : KernelEnv} {nd : Nat} {r : Int} {cnt : Nat} {dev : DrmDevice}
    (hok : env.addfb2_modifiers_cap_ok = false)
    (h : DrmDevice.Init env nd = some (r, cnt, dev)) :
    dev.HasAddFb2ModifiersSupport = false := by
  simp only [DrmDevice.Init] at h
  rw [hok] at h
  simp only [Bool.false_and] at h
  split at h
  · rw [← some_triple_dev h]
    rfl
  · split at h
    · rw [← some_triple_dev h]
      rfl
    · split at h
      · rw [← some_triple_dev h]
        rfl
      · split at h
        · rw [← some_triple_dev h]
        · split at h
          · rw [← some_triple_dev h]
          · rename_i res hres
            obtain ⟨g1, g2, g3, g4, g5, g6, g7, g8, g9, g10⟩ :=
              addDisplaysAll_spec (enumDevice res false) nd rfl
            have hfb : (addDisplaysAll (enumDevice res false) nd).1.HasAddFb2ModifiersSupport
                = false := g10.trans rfl
            split at h
            · rw [← some_triple_dev h]
              exact hfb
            · split at h
              · exact Option.noConfusion h
              · rename_i ret0 dev3 hpipe
                obtain ⟨p1, p2, p3, p5, p4⟩ := pipeLoop_preserves _ _ _ _ hpipe
                split at h
                · rw [← some_triple_dev h]
                  exact p5.trans hfb
                · rw [← some_triple_dev h]
                  exact p5.trans hfb

lemma classOrder_sub {conns : List DrmConnector} {q : Nat × DrmConnector}
    (hq : q ∈ classOrder conns) : q ∈ withIdx 0 conns := by
  simp only [classOrder, List.mem_append] at hq
  rcases hq with ((h | h) | h) | h <;> exact (List.mem_filter.mp h).1

lemma init_env_fields {envA2 envB : KernelEnv}
    (h1 : envA2.open_ok = envB.open_ok)
    (h2 : envA2.universal_planes_ret = envB.universal_planes_ret)
    (h3 : envA2.atomic_ret = envB.atomic_ret)
    (h45 : (envA2.addfb2_modifiers_cap_ok && envA2.addfb2_modifiers_cap_value != 0)
      = (envB.addfb2_modifiers_cap_ok && envB.addfb2_modifiers_cap_value != 0))
    (h6 : envA2.is_master = envB.is_master)
    (h7 : envA2.res = envB.res)
    (h8 : envA2.plane_res_ok = envB.plane_res_ok)
    (nd : Nat) : DrmDevice.Init envA2 nd = DrmDevice.Init envB nd := by
  simp only [DrmDevice.Init, h1, h2, h3, h45, h6, h7, h8]

/-! The claim theorems. -/

/-- C1 (counterexample): the claimed CRTC injectivity fails on the code.
On envShared, Init succeeds with two displays and binds CRTC index 0 to
both display 0 and display 1, because TryEncoderForDisplay only checks
whether the display already has a CRTC (bound_crtcs_.count(display)),
never whether the CRTC is claimed by another display. -/
theorem C1_counterexample :
    DrmDevice.Init envShared 0 = some (0, 2, devShared) ∧
    alookup devShared.bound_crtcs 0 = some 0 ∧
    alookup devShared.bound_crtcs 1 = some 0 ∧
    ¬ CrtcBindingInjective devShared := by
  refine ⟨by decide, by decide, by decide, ?_⟩
  intro hinj
  have h01 := hinj 0 1 0 (by decide) (by decide)
  exact absurd h01 (by decide)

/-- C1 (amended): for every successful run of Init, no encoder is bound
to more than one display id and no display id is bound to more than one
connector; the display-to-CRTC map, however, may bind one CRTC to
several display ids. -/
theorem C1_binding_maps_injective :
    ∀ (env : KernelEnv) (nd : Nat) (r : Int) (cnt : Nat) (dev : DrmDevice),
    DrmDevice.Init env nd = some (r, cnt, dev) → r = 0 →
    (∀ e d1 d2, (e, d1) ∈ dev.encoders_to_display_id →
      (e, d2) ∈ dev.encoders_to_display_id → d1 = d2) ∧
    (∀ d i1 i2, (d, i1) ∈ dev.bound_connectors →
      (d, i2) ∈ dev.bound_connectors → i1 = i2) := by
  intro env nd r cnt dev h hr
  obtain ⟨hkn, hsh⟩ := init_shape h
  refine ⟨fun e d1 d2 h1 h2 => keysNodup_eq_of_mem hkn h1 h2, ?_⟩
  have hbn : keysNodup dev.bound_connectors := by
    rcases hsh with ⟨-, -, h3⟩ | ⟨res, -, -, -, h3⟩
    · rw [h3]
      exact List.nodup_nil
    · rw [h3]
      exact nodup_map_fst_withIdx nd _
  exact fun d i1 i2 h1 h2 => keysNodup_eq_of_mem hbn h1 h2

theorem C1_witness :
    DrmDevice.Init envShared 0 = some (0, 2, devShared) ∧ (0 : Nat) = 0 :=
  ⟨by decide, (C1_binding_maps_injective envShared 0 0 2 devShared (by decide) rfl).1
    0 0 0 (by decide) (by decide)⟩

/-- C2: the only way CreateDisplayPipe fails is the NoSuitableEncoder
error -ENODEV with the device unchanged (a connector that exhausted all
encoder/CRTC candidates), and whenever Init returns a nonzero status its
reported display count is 0 and the modelled registry registers no
device. -/
theorem C2_no_suitable_encoder_fatal :
    (∀ (dev dev2 : DrmDevice) (connIdx : Nat) (r : Int),
      dev.CreateDisplayPipe connIdx = some (r, dev2) → r ≠ 0 →
        r = -ENODEV ∧ dev2 = dev) ∧
    (∀ (env : KernelEnv) (nd : Nat) (r : Int) (cnt : Nat) (dev : DrmDevice),
      DrmDevice.Init env nd = some (r, cnt, dev) → r ≠ 0 →
        cnt = 0 ∧ AddDrmDevice env nd = some ([], nd)) := by
  constructor
  · intro dev dev2 connIdx r h hr
    exact createPipe_of_fail h hr
  · intro env nd r cnt dev h hr
    refine ⟨init_fail_cnt h hr, ?_⟩
    simp [AddDrmDevice, h, hr]

theorem C2_witness :
    DrmDevice.Init envNoEncoder 0 = some (-ENODEV, 0, devNoEncoder) ∧
    AddDrmDevice envNoEncoder 0 = some ([], 0) := by
  have h := C2_no_suitable_encoder_fatal.2 envNoEncoder 0 (-ENODEV) 0 devNoEncoder
    (by decide) (by decide)
  exact ⟨by decide, h.2⟩

/-- C3: add_displays allocates sequential display ids from the starting
id, visiting connectors in the four priority classes in order and in
enumeration order within each class; when an internal connected
connector exists, the first allocated id binds to one. -/
theorem C3_display_id_allocation :
    ∀ (conns : List DrmConnector) (nd : Nat),
    (addDisplaysAll { emptyDevice with connectors := conns } nd).1.bound_connectors
        = withIdx nd ((classOrder conns).map Prod.fst) ∧
    (addDisplaysAll { emptyDevice with connectors := conns } nd).2
        = nd + (classOrder conns).length ∧
    ((∃ conn ∈ conns, conn.IsInternal = true ∧ conn.IsConnected = true) →
      ∃ i conn,
        alookup (addDisplaysAll { emptyDevice with connectors := conns } nd).1.bound_connectors
            nd = some i ∧
        conns[i]? = some conn ∧ conn.IsInternal = true ∧ conn.IsConnected = true) := by
  intro conns nd
  obtain ⟨g1, g2, g3, g4, g5, g6, g7, g8, g9, g10⟩ :=
    addDisplaysAll_spec { emptyDevice with connectors := conns } nd rfl
  refine ⟨g1, g2, ?_⟩
  rintro ⟨conn0, hmem, hint, hconn⟩
  obtain ⟨i0, hi0⟩ := mem_withIdx_of_mem hmem 0
  have hmatch : classMatch true true conn0 = true := by
    simp [classMatch, hint, hconn]
  have hfmem : (i0, conn0) ∈ (withIdx 0 conns).filter (fun q => classMatch true true q.2) :=
    List.mem_filter.mpr ⟨hi0, by simpa using hmatch⟩
  cases hfe : (withIdx 0 conns).filter (fun q => classMatch true true q.2) with
  | nil =>
    rw [hfe] at hfmem
    simp at hfmem
  | cons p rest =>
    have hco : classOrder conns = p ::
        (rest ++ ((withIdx 0 conns).filter (fun q => classMatch false true q.2) ++
          ((withIdx 0 conns).filter (fun q => classMatch true false q.2) ++
            (withIdx 0 conns).filter (fun q => classMatch false false q.2)))) := by
      rw [classOrder, hfe]
      simp [List.cons_append, List.append_assoc]
    have hlook : alookup (withIdx nd ((classOrder conns).map Prod.fst)) nd = some p.1 := by
      rw [hco]
      simp [withIdx, alookup]
    have hpfil : p ∈ (withIdx 0 conns).filter (fun q => classMatch true true q.2) := by
      rw [hfe]
      exact List.mem_cons_self p rest
    obtain ⟨hpin, hpcl⟩ := List.mem_filter.mp hpfil
    obtain ⟨-, -, hget⟩ := mem_withIdx hpin
    have hpcl2 : p.2.IsInternal = true ∧ p.2.IsConnected = true := by
      simpa [classMatch] using hpcl
    refine ⟨p.1, p.2, ?_, ?_, hpcl2.1, hpcl2.2⟩
    · rw [g1]
      exact hlook
    · simpa using hget

theorem C3_witness :
    (addDisplaysAll { emptyDevice with
      connectors := [⟨20, 0, 0, [10], true, true, false⟩] } 5).2 = 6 ∧
    alookup (addDisplaysAll { emptyDevice with
      connectors := [⟨20, 0, 0, [10], true, true, false⟩] } 5).1.bound_connectors 5
        = some 0 := by
  obtain ⟨i, conn, h1, h2, h3, h4⟩ :=
    (C3_display_id_allocation [⟨20, 0, 0, [10], true, true, false⟩] 5).2.2
      ⟨⟨20, 0, 0, [10], true, true, false⟩, by decide, by decide, by decide⟩
  exact ⟨by decide, by decide⟩

/-- C4: pipeline creation first attempts the connector's currently
configured encoder when it exists and is unclaimed; the CRTC search
first takes the encoder's currently configured CRTC as a fast path, and
otherwise binds the first CRTC in enumeration order that the encoder can
drive and that is not the encoder's current CRTC, yielding the -EAGAIN
retry signal when no CRTC is found. -/
theorem C4_search_order :
    (∀ (dev : DrmDevice) (display encIdx : Nat) (enc : DrmEncoder),
      dev.encoders[encIdx]? = some enc →
      (alookup dev.bound_crtcs display).isNone = true →
      ((∀ crtcIdx, dev.FindCrtcById enc.current_crtc_id = some crtcIdx →
          dev.TryEncoderForDisplay display encIdx
            = (0, dev.bindPipe display crtcIdx encIdx)) ∧
       (dev.FindCrtcById enc.current_crtc_id = none →
          dev.TryEncoderForDisplay display encIdx =
            match List.find?
                (fun p => enc.SupportsCrtc p.2 && p.2.id != enc.current_crtc_id)
                (withIdx 0 dev.crtcs) with
            | some p => (0, dev.bindPipe display p.1 encIdx)
            | none => (-EAGAIN, dev)))) ∧
    (∀ (dev dev2 : DrmDevice) (connIdx display encIdx0 : Nat) (conn : DrmConnector),
      dev.connectors[connIdx]? = some conn →
      alookup dev.connectors_to_display_id connIdx = some display →
      dev.FindEncoderById conn.current_encoder_id = some encIdx0 →
      (alookup dev.encoders_to_display_id encIdx0).isNone = true →
      dev.TryEncoderForDisplay display encIdx0 = (0, dev2) →
      dev.CreateDisplayPipe connIdx =
        some (0, { dev2 with
                   encoders_to_display_id :=
                     ainsert dev2.encoders_to_display_id encIdx0 display })) := by
  constructor
  · intro dev display encIdx enc henc hun
    constructor
    · intro crtcIdx hf
      rw [tryEncoder_char dev display encIdx enc henc hun, hf]
    · intro hf
      rw [tryEncoder_char dev display encIdx enc henc hun, hf]
  · intro dev dev2 connIdx display encIdx0 conn hc hd he hcl htry
    rw [createPipe_eq]
    simp only [hc, hd, he]
    rw [if_pos hcl, htry]
    rfl

theorem C4_witness :
    devOneCrtc.TryEncoderForDisplay 0 0 = (0, devOneCrtc.bindPipe 0 0 0) := by
  have h := (C4_search_order.1 devOneCrtc 0 0 ⟨10, 0, 0, 1⟩ (by decide) (by decide)).2
    (by decide)
  exact h.trans (by decide)

set_option maxHeartbeats 2000000 in
/-- C5: Init performs capability negotiation in a fixed order with fixed
fatality: universal-plane failure is fatal and reported first, atomic
failure is fatal, the writeback capability outcome never affects the
result, a failed modifier probe degrades to no modifier support without
failing, missing master access fails with -EACCES before any resource is
enumerated, and every failing Init reports display count 0. -/
theorem C5_capability_negotiation :
    ∀ (env : KernelEnv) (nd : Nat),
    (env.open_ok = true → env.universal_planes_ret ≠ 0 →
      DrmDevice.Init env nd = some (env.universal_planes_ret, 0, emptyDevice)) ∧
    (env.open_ok = true → env.universal_planes_ret = 0 → env.atomic_ret ≠ 0 →
      DrmDevice.Init env nd = some (env.atomic_ret, 0, emptyDevice)) ∧
    (∀ w, DrmDevice.Init { env with writeback_ret := w } nd = DrmDevice.Init env nd) ∧
    (env.addfb2_modifiers_cap_ok = false →
      DrmDevice.Init env nd
          = DrmDevice.Init { env with
              addfb2_modifiers_cap_ok := true, addfb2_modifiers_cap_value := 0 } nd ∧
      (∀ r cnt dev, DrmDevice.Init env nd = some (r, cnt, dev) →
        dev.HasAddFb2ModifiersSupport = false)) ∧
    (env.open_ok = true → env.universal_planes_ret = 0 → env.atomic_ret = 0 →
      env.is_master = false →
      ∃ dev, DrmDevice.Init env nd = some (-EACCES, 0, dev) ∧
        dev.crtcs = [] ∧ dev.encoders = [] ∧ dev.connectors = [] ∧
        dev.writeback_connectors = [] ∧ dev.bound_connectors = []) ∧
    (∀ r cnt dev, DrmDevice.Init env nd = some (r, cnt, dev) → r ≠ 0 → cnt = 0) := by
  intro env nd
  refine ⟨?_, ?_, ?_, ?_, ?_, ?_⟩
  · intro ho hu
    simp only [DrmDevice.Init]
    rw [if_neg (by simp [ho]), if_pos (by simpa using hu)]
  · intro ho hu ha
    simp only [DrmDevice.Init]
    rw [if_neg (by simp [ho]), if_neg (by simp [hu]), if_pos (by simpa using ha)]
  · intro w
    exact init_env_fields rfl rfl rfl rfl rfl rfl rfl nd
  · intro hok
    constructor
    · exact @init_env_fields env
        { env with addfb2_modifiers_cap_ok := true, addfb2_modifiers_cap_value := 0 }
        rfl rfl rfl (by simp [hok]) rfl rfl rfl nd
    · intro r cnt dev h
      exact init_hasfb2_false hok h
  · intro ho hu ha hm
    simp only [DrmDevice.Init]
    rw [if_neg (by simp [ho]), if_neg (by simp [hu]), if_neg (by simp [ha]),
      if_pos (by simp [hm])]
    exact ⟨_, rfl, rfl, rfl, rfl, rfl, rfl⟩
  · intro r cnt dev h hr
    exact init_fail_cnt h hr

theorem C5_witness :
    DrmDevice.Init envFailUniversal 0 = some (-22, 0, emptyDevice) :=
  (C5_capability_negotiation envFailUniversal 0).1 rfl (by decide)

/-- C6: a retry signal from the CRTC search leaves the binding maps
exactly as they were, and a confirmed bind commits the display-to-CRTC,
CRTC-to-encoder and encoder-to-display entries together (bindPipe at the
search level, commitPipe at the connector level). -/
theorem C6_retry_no_partial_state :
    (∀ (dev : DrmDevice) (display encIdx : Nat),
      (dev.TryEncoderForDisplay display encIdx).1 ≠ 0 →
        dev.TryEncoderForDisplay display encIdx = (-EAGAIN, dev)) ∧
    (∀ (dev dev2 : DrmDevice) (display encIdx : Nat),
      dev.TryEncoderForDisplay display encIdx = (0, dev2) →
        ∃ crtcIdx, dev2 = dev.bindPipe display crtcIdx encIdx) ∧
    (∀ (dev dev2 : DrmDevice) (connIdx : Nat) (r : Int),
      dev.CreateDisplayPipe connIdx = some (r, dev2) → r ≠ 0 → dev2 = dev) ∧
    (∀ (dev dev2 : DrmDevice) (connIdx : Nat),
      dev.CreateDisplayPipe connIdx = some (0, dev2) →
        ∃ display crtcIdx encIdx, dev2 = commitPipe dev display crtcIdx encIdx) := by
  refine ⟨?_, ?_, ?_, ?_⟩
  · intro dev display encIdx h
    exact tryEncoder_of_fail h
  · intro dev dev2 display encIdx h
    exact tryEncoder_of_success h
  · intro dev dev2 connIdx r h hr
    exact (createPipe_of_fail h hr).2
  · intro dev dev2 connIdx h
    exact createPipe_of_success h

theorem C6_witness :
    emptyDevice.TryEncoderForDisplay 0 0 = (-EAGAIN, emptyDevice) :=
  C6_retry_no_partial_state.1 emptyDevice 0 0 (by decide)

/-- C7: GetProperty reports QueryFailed (-ENODEV) exactly when the
kernel cannot enumerate the object's properties; under a successful
enumeration it reports NotFound (-ENOENT) iff no property has the
requested name, every reported match carries the requested name and a
(name, value) pair from the property set, and a name present exactly
once yields that property's descriptor and current value. -/
theorem C7_property_lookup :
    ∀ (props : Option (List (String × Nat))) (obj_id : Nat) (prop_name : String),
    (DrmDevice.GetProperty props obj_id prop_name = .error (-ENODEV) ↔ props = none) ∧
    (∀ ps, props = some ps →
      (DrmDevice.GetProperty props obj_id prop_name = .error (-ENOENT) ↔
        ∀ p ∈ ps, p.1 ≠ prop_name)) ∧
    (∀ ps d, props = some ps → DrmDevice.GetProperty props obj_id prop_name = .ok d →
      d.obj_id = obj_id ∧ d.name = prop_name ∧ (prop_name, d.value) ∈ ps) ∧
    (∀ ps v, props = some ps →
      ps.filter (fun p => p.1 == prop_name) = [(prop_name, v)] →
      DrmDevice.GetProperty props obj_id prop_name = .ok ⟨obj_id, prop_name, v⟩) := by
  intro props obj_id nm
  refine ⟨?_, ?_, ?_, ?_⟩
  · cases props with
    | none => simp [DrmDevice.GetProperty]
    | some ps =>
      simp only [DrmDevice.GetProperty]
      cases hf : List.find? (fun p => p.1 == nm) ps with
      | some p => simp [ENODEV]
      | none => simp [ENODEV, ENOENT]
  · intro ps hps
    subst hps
    simp only [DrmDevice.GetProperty]
    cases hf : List.find? (fun p => p.1 == nm) ps with
    | some p =>
      constructor
      · intro habs
        exact absurd habs (by simp)
      · intro hall
        exfalso
        have hmem := List.mem_of_find?_eq_some hf
        have hp := List.find?_some hf
        exact hall p hmem (by simpa using hp)
    | none =>
      constructor
      · intro _ p hp hname
        have hnot := List.find?_eq_none.mp hf p hp
        simp at hnot
        exact hnot hname
      · intro _
        rfl
  · intro ps d hps hok
    subst hps
    simp only [DrmDevice.GetProperty] at hok
    cases hf : List.find? (fun p => p.1 == nm) ps with
    | none =>
      rw [hf] at hok
      exact Except.noConfusion hok
    | some p =>
      rw [hf] at hok
      have hinj := Except.ok.inj hok
      have hname : p.1 = nm := by simpa using List.find?_some hf
      have hmem := List.mem_of_find?_eq_some hf
      rw [← hinj]
      refine ⟨rfl, hname, ?_⟩
      rw [← hname]
      exact hmem
  · intro ps v hps hfil
    subst hps
    simp only [DrmDevice.GetProperty]
    have hfind : List.find? (fun p => p.1 == nm) ps = some (nm, v) := by
      rw [find?_eq_head?_filter, hfil]
      rfl
    rw [hfind]

theorem C7_witness :
    DrmDevice.GetProperty (some [("CRTC_ID", 5)]) 7 "CRTC_ID" = .ok ⟨7, "CRTC_ID", 5⟩ :=
  (C7_property_lookup (some [("CRTC_ID", 5)]) 7 "CRTC_ID").2.2.2 [("CRTC_ID", 5)] 5
    rfl (by decide)

/-- C8: a failed blob creation returns the empty handle; a successful
creation returns a handle whose release issues exactly one kernel
destroy call for the held blob id, with a failed destroy only logged
(the deleter has no error channel), on every exit path of the owning
scope per the modelled unique-handle release discipline. -/
theorem C8_blob_exactly_one_destroy :
    ∀ (create_ret : Int) (blob_id : Nat) (destroy_ret : Int),
    (create_ret ≠ 0 → DrmDevice.RegisterUserPropertyBlob create_ret blob_id = none) ∧
    (create_ret = 0 → DrmDevice.RegisterUserPropertyBlob create_ret blob_id = some blob_id) ∧
    (∀ b, DrmDevice.RegisterUserPropertyBlob create_ret blob_id = some b →
      blobScopeDestroyCalls destroy_ret b = [b] ∧ (blobDeleter destroy_ret b).2 = ()) := by
  intro cr blob dr
  refine ⟨?_, ?_, ?_⟩
  · intro h
    simp [DrmDevice.RegisterUserPropertyBlob, h]
  · intro h
    simp [DrmDevice.RegisterUserPropertyBlob, h]
  · intro b _
    exact ⟨rfl, rfl⟩

theorem C8_witness :
    DrmDevice.RegisterUserPropertyBlob 0 42 = some 42 ∧
    blobScopeDestroyCalls (-1) 42 = [42] := by
  have h := C8_blob_exactly_one_destroy 0 42 (-1)
  have hc := h.2.1 rfl
  exact ⟨hc, (h.2.2 42 hc).1⟩

/-- C9: a display id absent from both the display-to-connector and
display-to-CRTC maps is not handled, and both accessors fail on it
(std::map::at out-of-range, modelled as none): HandlesDisplay is a
precondition of GetConnectorForDisplay and GetCrtcForDisplay. -/
theorem C9_accessors_require_handles_display :
    ∀ (dev : DrmDevice) (display : Nat),
    alookup dev.bound_connectors display = none →
    alookup dev.bound_crtcs display = none →
    dev.HandlesDisplay display = false ∧
    dev.GetConnectorForDisplay display = none ∧
    dev.GetCrtcForDisplay display = none := by
  intro dev display h1 h2
  exact ⟨by simp [DrmDevice.HandlesDisplay, h1], h1, h2⟩

theorem C9_witness :
    emptyDevice.HandlesDisplay 3 = false ∧
    emptyDevice.GetConnectorForDisplay 3 = none ∧
    emptyDevice.GetCrtcForDisplay 3 = none :=
  C9_accessors_require_handles_display emptyDevice 3 rfl rfl

set_option maxHeartbeats 2000000 in
/-- C10: after any Init run, the device's assignable connector list
holds no writeback connector, the writeback list holds only writeback
connectors, every display binding refers to a non-writeback connector,
and the result is independent of the writeback capability negotiation
outcome. -/
theorem C10_writeback_isolated :
    ∀ (env : KernelEnv) (nd : Nat) (r : Int) (cnt : Nat) (dev : DrmDevice),
    DrmDevice.Init env nd = some (r, cnt, dev) →
    (∀ conn ∈ dev.connectors, conn.IsWriteback = false) ∧
    (∀ conn ∈ dev.writeback_connectors, conn.IsWriteback = true) ∧
    (∀ d i, alookup dev.bound_connectors d = some i →
      ∃ conn, dev.connectors[i]? = some conn ∧ conn.IsWriteback = false) ∧
    (∀ w, DrmDevice.Init { env with writeback_ret := w } nd = DrmDevice.Init env nd) := by
  intro env nd r cnt dev h
  have hwb : ∀ w, DrmDevice.Init { env with writeback_ret := w } nd
      = DrmDevice.Init env nd := by
    intro w
    exact init_env_fields rfl rfl rfl rfl rfl rfl rfl nd
  obtain ⟨hkn, hsh⟩ := init_shape h
  rcases hsh with ⟨h1, h2, h3⟩ | ⟨res, hres, h1, h2, h3⟩
  · refine ⟨?_, ?_, ?_, hwb⟩
    · rw [h1]
      intro conn hc
      simp at hc
    · rw [h2]
      intro conn hc
      simp at hc
    · rw [h3]
      intro d i hl
      simp [alookup] at hl
  · refine ⟨?_, ?_, ?_, hwb⟩
    · rw [h1]
      exact splitConnectors_fst res.connectors
    · rw [h2]
      exact splitConnectors_snd res.connectors
    · intro d i hl
      rw [h3] at hl
      have hmem := alookup_mem hl
      obtain ⟨-, -, hget⟩ := mem_withIdx hmem
      have himem : i ∈ (classOrder (splitConnectors res.connectors).1).map Prod.fst :=
        List.getElem?_mem hget
      obtain ⟨q, hq, hqi⟩ := List.mem_map.mp himem
      have hqin : q ∈ withIdx 0 (splitConnectors res.connectors).1 := classOrder_sub hq
      obtain ⟨-, -, hqget⟩ := mem_withIdx hqin
      have hqget2 : (splitConnectors res.connectors).1[q.1]? = some q.2 := by
        simpa using hqget
      refine ⟨q.2, ?_, ?_⟩
      · rw [h1, ← hqi]
        exact hqget2
      · exact splitConnectors_fst res.connectors q.2 (List.getElem?_mem hqget2)

theorem C10_witness :
    DrmDevice.Init { envA with writeback_ret := 5 } 0 = DrmDevice.Init envA 0 :=
  (C10_writeback_isolated envA 0 0 2 devA (by decide)).2.2.2 5

end DrmHwc
